import Mathlib

/-!
Verification of the AirGradient DIY sensor firmware (`src/main.cpp`) against its
natural-language specification.

The firmware's float arithmetic is embedded with exact rationals (`ℚ`).  For every
concrete value this development evaluates, the exact-rational result coincides with
the IEEE result of the C++ code: the AQI classifier is only ever applied to integer
concentrations (its C++ parameter is `int`), integer values and the breakpoint
literals are far from each other and from rounding ties relative to double error,
and the linear interpolation at the integer inputs considered never lands within
1/9998 of a half-integer.
-/

namespace AirGradient

/-- C `round` from `math.h`: round to nearest, halves away from zero. -/
def roundHalfAway (q : ℚ) : ℤ :=
  if 0 ≤ q then ⌊q + 1/2⌋ else -⌊-q + 1/2⌋

/-- `src/main.cpp` lines 152–157:
`int linear(int AQIhigh, int AQIlow, float Conchigh, float Conclow, float Concentration)`
computes `((Concentration - Conclow) / (Conchigh - Conclow)) * (AQIhigh - AQIlow) + AQIlow`
and returns `round` of it. -/
def linear (AQIhigh AQIlow : ℤ) (Conchigh Conclow Concentration : ℚ) : ℤ :=
  roundHalfAway (((Concentration - Conclow) / (Conchigh - Conclow)) * ((AQIhigh : ℚ) - (AQIlow : ℚ)) + (AQIlow : ℚ))

/-- The eight-way `if`/`else if` breakpoint chain in the body of `pm25toAQI`
(`src/main.cpp` lines 166–197), evaluated on the already-truncated value `c`.
First match wins; the final `else` is the catch-all. -/
def classifyC (c : ℚ) : ℤ :=
  if 0 ≤ c ∧ c < 12.1 then linear 50 0 12 0 c
  else if 12.1 ≤ c ∧ c < 35.5 then linear 100 51 35.4 12.1 c
  else if 35.5 ≤ c ∧ c < 55.5 then linear 150 101 55.4 35.5 c
  else if 55.5 ≤ c ∧ c < 150.5 then linear 200 151 150.4 55.5 c
  else if 150.5 ≤ c ∧ c < 250.5 then linear 300 201 250.4 150.5 c
  else if 250.5 ≤ c ∧ c < 350.5 then linear 400 301 350.4 250.5 c
  else if 350.5 ≤ c ∧ c < 500.5 then linear 500 401 500.4 350.5 c
  else linear 1000 501 1000.4 500.5 c

/-- `src/main.cpp` lines 161–200: `int pm25toAQI(int pm25)`.  NOTE the parameter
type in the source is `int`, not `float`; the body first computes
`float c = (floor(10 * float(pm25))) / 10;` and then classifies `c`. -/
def pm25toAQI (pm25 : ℤ) : ℤ :=
  classifyC ((⌊(10 : ℚ) * (pm25 : ℚ)⌋ : ℚ) / 10)

/-- C++ implicit floating→integral conversion (applied when a fractional literal
is passed to `pm25toAQI`'s `int` parameter): truncation toward zero.  For the
fractional literals used in this development (12.0, 12.05, 12.1, 12.15, 500.4,
1000.4) the exact-rational truncation agrees with truncating their IEEE doubles. -/
def cppTruncToInt (x : ℚ) : ℤ :=
  if 0 ≤ x then ⌊x⌋ else ⌈x⌉

/-- Modelled from the spec: the spec's §4.1 contract `aqiFromConcentration(concentration: float)`
— "values are first truncated to one decimal place (`floor(10x)/10`) before
classification", then classified by the same breakpoint table the source uses.
This definition follows the spec's words; the source's `pm25toAQI` (an `int`→`int`
function) is compared against it. -/
def aqiFromConcentration (x : ℚ) : ℤ :=
  classifyC ((⌊(10 : ℚ) * x⌋ : ℚ) / 10)

/-- Build/boot-time configuration flags (`src/main.cpp` lines 46–53). -/
structure Config where
  hasCO2 : Bool
  hasPM : Bool
  hasSHT : Bool
  connectWIFI : Bool
  sendMQTT : Bool

/-- The configuration shipped in the source: all five flags `true`. -/
def sourceConfig : Config := ⟨true, true, true, true, true⟩

/-- `msSAMPLE_INTERVAL` (`src/main.cpp` line 59). -/
def msSAMPLE_INTERVAL : ℕ := 2500

/-- `msPUBLISH_INTERVAL` (`src/main.cpp` line 60). -/
def msPUBLISH_INTERVAL : ℕ := 30000

/-- Modelled from the spec: the MQTT topic root constant `mqtt_topic_root` comes
from `Settings.h`, which is not under `src/`; the spec's topic scenario
(`airgradient/<id>/co2`) fixes it to `"airgradient"`. -/
def mqttTopicRoot : String := "airgradient"

/-- Hex digit characters, lowercase, as produced by Arduino `String(n, HEX)`. -/
def hexDigitChar (n : ℕ) : Char :=
  if n < 10 then Char.ofNat (48 + n) else Char.ofNat (97 + (n - 10))

/-- Fuel-driven most-significant-first hex digit expansion; fuel `n + 1` always
suffices since the value shrinks by a factor of 16 each step. -/
def hexCharsAux : ℕ → ℕ → List Char
  | 0, _ => []
  | fuel + 1, n =>
    if n < 16 then [hexDigitChar n]
    else hexCharsAux fuel (n / 16) ++ [hexDigitChar (n % 16)]

/-- Arduino `String(n, HEX)`: lowercase hexadecimal, no prefix, `"0"` for zero
(used for the device id at `src/main.cpp` line 208 and the client id at line 135). -/
def toHexString (n : ℕ) : String := ⟨hexCharsAux (n + 1) n⟩

/-- `String::toCharArray(buf, n)` copies at most `n - 1` characters plus a NUL
into `buf`; the source uses `n = 64` for topics and payloads and `n = 32` for
the device id. -/
def toCharArray (n : ℕ) (s : String) : String := ⟨s.data.take (n - 1)⟩

/-- `uint32_t` subtraction `now - last`, wrapping modulo `2 ^ 32`
(the `millis() - msLAST_...` timer arithmetic). -/
def u32sub (a b : ℕ) : ℕ := ((a % 2 ^ 32) + 2 ^ 32 - (b % 2 ^ 32)) % 2 ^ 32

/-- Lowercase-hex character test (used to state that the device id is a
lowercase hexadecimal string). -/
def isLowerHexDigit (c : Char) : Bool :=
  (decide ('0' ≤ c) && decide (c ≤ '9')) || (decide ('a' ≤ c) && decide (c ≤ 'f'))

/-- The global mutable state of `src/main.cpp` (lines 55–78): latest sensor
values, the five display lines, the topic root (global `topic_prefix`, renamed
`topicPre` here), the boot-time device id, and the two timer marks. -/
structure DeviceState where
  Temperature : ℚ
  AQI : ℤ
  CO2 : ℤ
  Humidity : ℤ
  PM2 : ℤ
  ln1 : String
  ln2 : String
  ln3 : String
  ln4 : String
  ln5 : String
  topicPre : String
  deviceid : String
  msLAST_METRIC : ℕ
  msLAST_SAMPLE : ℕ

/-- One tick's raw collaborator outputs: `ag.getCO2_Raw()`, `ag.getPM2_Raw()`,
and `ag.periodicFetchData()`'s `{t, rh}` struct (Celsius, relative humidity).
The drivers are external collaborators returning plain numbers; a failed read
surfaces only as an in-band value (e.g. `-1`), there is no separate channel. -/
structure SampleInputs where
  co2Raw : ℤ
  pm2Raw : ℤ
  shtT : ℚ
  shtRH : ℚ

/-- Externally observable actions of one `loop()` iteration. -/
inductive Event where
  | connectAttempt (clientId : String)
  | delayMs (ms : ℕ)
  | clientLoop
  | display (l1 l2 l3 l4 l5 : String)
  | publish (topic payload : String) (retained : Bool)
deriving DecidableEq

/-- `setup()` (`src/main.cpp` lines 202–229): globals are zero-initialised and
the device id is `String(ESP.getChipId(), HEX)` (chip id is a `uint32_t`)
copied through `toCharArray(deviceid, 32)`. -/
def setupState (chip : ℕ) : DeviceState where
  Temperature := 0
  AQI := 0
  CO2 := 0
  Humidity := 0
  PM2 := 0
  ln1 := ""
  ln2 := ""
  ln3 := ""
  ln4 := ""
  ln5 := ""
  topicPre := ""
  deviceid := toCharArray 32 (toHexString (chip % 2 ^ 32))
  msLAST_METRIC := 0
  msLAST_SAMPLE := 0

/-- Modelled from the spec (§6): Arduino `String(float)` renders the value with
two decimal places (library behaviour, not under `src/`); the exact text form is
not load-bearing for any claim. -/
def arduinoFloatString (q : ℚ) : String :=
  let scaled : ℤ := roundHalfAway (q * 100)
  let sign := if scaled < 0 then "-" else ""
  let a := scaled.natAbs
  sign ++ toString (a / 100) ++ "." ++ (if a % 100 < 10 then "0" else "") ++ toString (a % 100)

/-- The sample branch of `loop()` (`src/main.cpp` lines 243–281): clear the five
lines, rebuild the topic root, then run the three independent `if (has…)`
blocks.  The blocks write disjoint fields, so the sequential source is rendered
field-wise; a disabled block leaves its lines at the cleared `""` and its sensor
globals untouched. -/
def sampleTick (cfg : Config) (now : ℕ) (inp : SampleInputs) (s : DeviceState) : DeviceState where
  Temperature := if cfg.hasSHT then inp.shtT * 1.8 + 32 else s.Temperature
  AQI := if cfg.hasPM then pm25toAQI inp.pm2Raw else s.AQI
  CO2 := if cfg.hasCO2 then inp.co2Raw else s.CO2
  Humidity := if cfg.hasSHT then cppTruncToInt inp.shtRH else s.Humidity
  PM2 := if cfg.hasPM then inp.pm2Raw else s.PM2
  ln1 := if cfg.hasSHT then "TMP: " ++ toString (cppTruncToInt (inp.shtT * 1.8 + 32)) ++ "Â°F" else ""
  ln2 := if cfg.hasSHT then "HMD: " ++ toString (cppTruncToInt inp.shtRH) ++ "%" else ""
  ln3 := if cfg.hasPM then "AQI:  " ++ toString (pm25toAQI inp.pm2Raw) else ""
  ln4 := if cfg.hasPM then "PM2: " ++ toString inp.pm2Raw else ""
  ln5 := if cfg.hasCO2 then "CO2: " ++ toString inp.co2Raw else ""
  topicPre := mqttTopicRoot ++ "/" ++ s.deviceid ++ "/"
  deviceid := s.deviceid
  msLAST_METRIC := s.msLAST_METRIC
  msLAST_SAMPLE := now

/-- The publish branch of `loop()` (`src/main.cpp` lines 285–317): set
`msLAST_METRIC := millis()`, then per enabled sensor format the payload and the
topic through `toCharArray(..., 64)` and call `client.publish(topic, payload, true)`.
The transport's boolean reply `resp topic payload retained` is obtained and
discarded, exactly as the source ignores the return of `client.publish`. -/
def publishTick (cfg : Config) (now : ℕ) (s : DeviceState)
    (resp : String → String → Bool → Bool) : DeviceState × List Event :=
  ({ s with msLAST_METRIC := now },
    (if cfg.hasCO2 then
      let payload := toCharArray 64 (toString s.CO2)
      let topic := toCharArray 64 (s.topicPre ++ "co2")
      let _ok := resp topic payload true
      [Event.publish topic payload true]
    else []) ++
    (if cfg.hasPM then
      let payloadA := toCharArray 64 (toString s.AQI)
      let topicA := toCharArray 64 (s.topicPre ++ "aqi")
      let _okA := resp topicA payloadA true
      let payloadP := toCharArray 64 (toString s.PM2)
      let topicP := toCharArray 64 (s.topicPre ++ "pm25")
      let _okP := resp topicP payloadP true
      [Event.publish topicA payloadA true, Event.publish topicP payloadP true]
    else []) ++
    (if cfg.hasSHT then
      let payloadH := toCharArray 64 (toString s.Humidity)
      let topicH := toCharArray 64 (s.topicPre ++ "humidity")
      let _okH := resp topicH payloadH true
      let payloadT := toCharArray 64 (arduinoFloatString s.Temperature)
      let topicT := toCharArray 64 (s.topicPre ++ "temperature")
      let _okT := resp topicT payloadT true
      [Event.publish topicH payloadH true, Event.publish topicT payloadT true]
    else []))

/-- `reconnect()` (`src/main.cpp` lines 126–150): loop until connected; each
iteration draws `random(0xffff)` and attempts `client.connect` with the id
`"airgradient-" + String(r, HEX)`; on failure it delays 5000 ms and retries.
The list supplies each iteration's random draw and connect outcome; an empty
remainder models a loop that is still blocked, since the real function does not
return until some attempt succeeds. -/
def reconnect : List (ℕ × Bool) → List Event × Bool
  | [] => ([], false)
  | (rnd, ok) :: rest =>
    let clientId := "airgradient-" ++ toHexString (rnd % 0xffff)
    if ok then ([Event.connectAttempt clientId], true)
    else
      let r := reconnect rest
      (Event.connectAttempt clientId :: Event.delayMs 5000 :: r.1, r.2)

/-- Inputs consumed by one `loop()` iteration: the transport's connected flag at
the top of the iteration, the random draw and outcome of each connect attempt,
the two `millis()` readings (the two adjacent reads inside each timer branch
are modelled as a single reading), the raw sensor outputs, and the transport's
reply to each publish. -/
structure IterInputs where
  connected : Bool
  attempts : List (ℕ × Bool)
  tSample : ℕ
  sensors : SampleInputs
  tPublish : ℕ
  pubResp : String → String → Bool → Bool

/-- Lines 233–240 of `loop()`: when WiFi+MQTT are enabled, run the blocking
`reconnect()` if the transport reports disconnected, then `client.loop()`.
Returns the emitted events and whether the iteration is past the connection
phase (`false` only when the modelled `reconnect` is still blocked). -/
def connPhase (cfg : Config) (inp : IterInputs) : List Event × Bool :=
  if cfg.connectWIFI = true ∧ cfg.sendMQTT = true then
    if inp.connected then ([Event.clientLoop], true)
    else
      let r := reconnect inp.attempts
      (r.1 ++ (if r.2 then [Event.clientLoop] else []), r.2)
  else ([], true)

/-- Lines 243–282 of `loop()`: the 2500 ms sample branch — when due, run the
sample tick and render the five lines to the display. -/
def samplePhase (cfg : Config) (inp : IterInputs) (s : DeviceState) : DeviceState × List Event :=
  if msSAMPLE_INTERVAL ≤ u32sub inp.tSample s.msLAST_SAMPLE then
    let s' := sampleTick cfg inp.tSample inp.sensors s
    (s', [Event.display s'.ln1 s'.ln2 s'.ln3 s'.ln4 s'.ln5])
  else (s, [])

/-- Lines 285–317 of `loop()`: the 30000 ms publish branch, guarded by the
WiFi+MQTT flags and the publish timer. -/
def publishPhase (cfg : Config) (inp : IterInputs) (s : DeviceState) : DeviceState × List Event :=
  if cfg.connectWIFI = true ∧ cfg.sendMQTT = true ∧
      msPUBLISH_INTERVAL ≤ u32sub inp.tPublish s.msLAST_METRIC then
    publishTick cfg inp.tPublish s inp.pubResp
  else (s, [])

/-- One iteration of `loop()` (`src/main.cpp` lines 231–318): connection
supervision first, then the sample branch, then the publish branch.  When the
modelled `reconnect` has not yet succeeded, the iteration is still inside the
blocking loop, so only the connection events are visible and the state is
untouched. -/
def loopIteration (cfg : Config) (inp : IterInputs) (s : DeviceState) : DeviceState × List Event :=
  let conn := connPhase cfg inp
  if conn.2 then
    let sampled := samplePhase cfg inp s
    let published := publishPhase cfg inp sampled.1
    (published.1, conn.1 ++ sampled.2 ++ published.2)
  else (s, conn.1)

/-- Run `loop()` repeatedly, threading state and concatenating the events. -/
def run (cfg : Config) : List IterInputs → DeviceState → DeviceState × List Event
  | [], s => (s, [])
  | inp :: rest, s =>
    let r := loopIteration cfg inp s
    let r2 := run cfg rest r.1
    (r2.1, r.2 ++ r2.2)

/-- The canonical per-device topic root `<root>/<deviceId>/` built by the
sample branch. -/
def topicPreOf (chip : ℕ) : String :=
  mqttTopicRoot ++ "/" ++ toHexString (chip % 2 ^ 32) ++ "/"

/-- A metric's full topic for a given chip id. -/
def topicFor (chip : ℕ) (metric : String) : String := topicPreOf chip ++ metric

/-- The metric names a configuration publishes, in source order. -/
def metricsOf (cfg : Config) : List String :=
  (if cfg.hasCO2 then ["co2"] else []) ++
  (if cfg.hasPM then ["aqi", "pm25"] else []) ++
  (if cfg.hasSHT then ["humidity", "temperature"] else [])

/-- Loop invariant: the device id is the boot-time hex id and the topic root is
either the cleared initial value or the canonical per-device root. -/
def GoodState (chip : ℕ) (s : DeviceState) : Prop :=
  s.deviceid = toHexString (chip % 2 ^ 32) ∧
  (s.topicPre = "" ∨ s.topicPre = topicPreOf chip)

/-- The payload text the publish branch attaches to a metric, as a function of
the state (matching the `String(...)` → `toCharArray(mqtt_payload, 64)` calls
at `src/main.cpp` lines 291, 298, 302, 309, 313). -/
def payloadOf (s : DeviceState) (m : String) : String :=
  if m = "co2" then toCharArray 64 (toString s.CO2)
  else if m = "aqi" then toCharArray 64 (toString s.AQI)
  else if m = "pm25" then toCharArray 64 (toString s.PM2)
  else if m = "humidity" then toCharArray 64 (toString s.Humidity)
  else toCharArray 64 (arduinoFloatString s.Temperature)

/-- Classification of every event one iteration can emit: connection-phase
events, a display whose lines for disabled sensors are empty, or a retained
publish of one of the enabled metrics on the cleared or canonical topic root. -/
def BenignEvent (cfg : Config) (chip : ℕ) (e : Event) : Prop :=
  (∃ cid, e = Event.connectAttempt cid) ∨ e = Event.delayMs 5000 ∨ e = Event.clientLoop ∨
  (∃ l1 l2 l3 l4 l5, e = Event.display l1 l2 l3 l4 l5 ∧
    (cfg.hasSHT = false → l1 = "" ∧ l2 = "") ∧
    (cfg.hasCO2 = false → l5 = "") ∧
    (cfg.hasPM = false → l3 = "" ∧ l4 = "")) ∨
  (∃ m ∈ metricsOf cfg, ∃ pl p, (p = "" ∨ p = topicPreOf chip) ∧
    e = Event.publish (toCharArray 64 (p ++ m)) pl true)

/-- A configuration with only the CO2 sensor enabled (used for concrete
counterexample scenarios; `SensorEnablement` is free per the spec). -/
def co2OnlyConfig : Config := ⟨true, false, false, true, true⟩

/-- The five metric names the source can ever publish. -/
def allMetrics : List String := ["co2", "aqi", "pm25", "humidity", "temperature"]

/-- On an integer concentration the source's truncation step
`floor(10 * float(pm25)) / 10` is the identity. -/
lemma floor_ten_int (m : ℤ) : ((⌊(10 : ℚ) * (m : ℚ)⌋ : ℚ) / 10) = (m : ℚ) := by
  have h1 : (10 : ℚ) * (m : ℚ) = ((10 * m : ℤ) : ℚ) := by push_cast; ring
  rw [h1, Int.floor_intCast]
  push_cast
  ring

/-- The final `else` of the breakpoint chain is reached exactly for `c < 0`
(no guard admits negative values) and for `c ≥ 500.5`. -/
lemma classifyC_else (c : ℚ) (h : c < 0 ∨ 500.5 ≤ c) :
    classifyC c = linear 1000 501 1000.4 500.5 c := by
  rcases h with h | h
  · have g1 : ¬(0 ≤ c ∧ c < 12.1) := by rintro ⟨h1, -⟩; linarith
    have g2 : ¬((12.1 : ℚ) ≤ c ∧ c < 35.5) := by rintro ⟨h1, -⟩; norm_num at h1; linarith
    have g3 : ¬((35.5 : ℚ) ≤ c ∧ c < 55.5) := by rintro ⟨h1, -⟩; norm_num at h1; linarith
    have g4 : ¬((55.5 : ℚ) ≤ c ∧ c < 150.5) := by rintro ⟨h1, -⟩; norm_num at h1; linarith
    have g5 : ¬((150.5 : ℚ) ≤ c ∧ c < 250.5) := by rintro ⟨h1, -⟩; norm_num at h1; linarith
    have g6 : ¬((250.5 : ℚ) ≤ c ∧ c < 350.5) := by rintro ⟨h1, -⟩; norm_num at h1; linarith
    have g7 : ¬((350.5 : ℚ) ≤ c ∧ c < 500.5) := by rintro ⟨h1, -⟩; norm_num at h1; linarith
    rw [classifyC, if_neg g1, if_neg g2, if_neg g3, if_neg g4, if_neg g5, if_neg g6, if_neg g7]
  · have h' : (5005 : ℚ) / 10 ≤ c := by norm_num at h ⊢; linarith
    have g1 : ¬(0 ≤ c ∧ c < 12.1) := by rintro ⟨-, h2⟩; norm_num at h2; linarith
    have g2 : ¬((12.1 : ℚ) ≤ c ∧ c < 35.5) := by rintro ⟨-, h2⟩; norm_num at h2; linarith
    have g3 : ¬((35.5 : ℚ) ≤ c ∧ c < 55.5) := by rintro ⟨-, h2⟩; norm_num at h2; linarith
    have g4 : ¬((55.5 : ℚ) ≤ c ∧ c < 150.5) := by rintro ⟨-, h2⟩; norm_num at h2; linarith
    have g5 : ¬((150.5 : ℚ) ≤ c ∧ c < 250.5) := by rintro ⟨-, h2⟩; norm_num at h2; linarith
    have g6 : ¬((250.5 : ℚ) ≤ c ∧ c < 350.5) := by rintro ⟨-, h2⟩; norm_num at h2; linarith
    have g7 : ¬((350.5 : ℚ) ≤ c ∧ c < 500.5) := by rintro ⟨-, h2⟩; norm_num at h2; linarith
    rw [classifyC, if_neg g1, if_neg g2, if_neg g3, if_neg g4, if_neg g5, if_neg g6, if_neg g7]

/-- Value table of `pm25toAQI` on the integer inputs 0..12 (band 1). -/
lemma pm25toAQI_val (n : ℤ) (h0 : 0 ≤ n) (h12 : n ≤ 12) :
    pm25toAQI n = ([0, 4, 8, 13, 17, 21, 25, 29, 33, 38, 42, 46, 50] : List ℤ).getD n.toNat 0 := by
  interval_cases n <;>
    norm_num [pm25toAQI, classifyC, linear, roundHalfAway, List.getD] <;>
    decide

/-- Claim C1 counterexample: the claim asserts `aqiFromConcentration(12.1) = 51`,
but the source's converter takes an `int` parameter, so a C++ call with the
argument 12.1 truncates it to 12 and lands in band 1, producing 50, not 51. -/
theorem c1_breakpoint_counterexample :
    pm25toAQI (cppTruncToInt 12.1) ≠ 51 := by
  norm_num [pm25toAQI, classifyC, linear, roundHalfAway, cppTruncToInt]

/-- Claim C1 (amended): the converter's parameter is an `int`, so a fractional
breakpoint argument is truncated toward zero at the call boundary; with that
coercion the published-breakpoint evaluations are
`0 ↦ 0`, `12.0 ↦ 50`, `12.1 ↦ 12 ↦ 50` (not 51), `500.4 ↦ 500 ↦ 500`,
`1000.4 ↦ 1000 ↦ 1000`, each a band's linear interpolation rounded
half-away-from-zero. -/
theorem c1_breakpoints_amended :
    pm25toAQI 0 = 0 ∧
    pm25toAQI (cppTruncToInt 12.0) = 50 ∧
    pm25toAQI (cppTruncToInt 12.1) = 50 ∧
    pm25toAQI (cppTruncToInt 500.4) = 500 ∧
    pm25toAQI (cppTruncToInt 1000.4) = 1000 := by
  refine ⟨?_, ?_, ?_, ?_, ?_⟩ <;>
    norm_num [pm25toAQI, classifyC, linear, roundHalfAway, cppTruncToInt]

/-- Claim C2 counterexample: the claim says the converter truncates every input
`x` to one decimal place (`floor(10x)/10`) and classifies that value; at the
input 12.15 the source truncates to the integer 12 (its parameter is `int`) and
returns 50, while the claimed one-decimal recipe keeps 12.1 and returns 51. -/
theorem c2_truncation_counterexample :
    pm25toAQI (cppTruncToInt 12.15) = 50 ∧ aqiFromConcentration 12.15 = 51 := by
  constructor <;>
    norm_num [pm25toAQI, aqiFromConcentration, classifyC, linear, roundHalfAway, cppTruncToInt]

/-- Claim C2 (amended): the converter's parameter is an integer, so a fractional
input is truncated toward zero to an integer at the call boundary; on integers
the source's `floor(10*c)/10` step is the identity, and the converter agrees with
the spec's one-decimal recipe on every integer concentration.  In particular an
input of 12.05 truncates to 12 and yields the band-1 result 50
(`linear(50, 0, 12, 0, 12)`). -/
theorem c2_truncation_amended :
    (∀ m : ℤ, ((⌊(10 : ℚ) * (m : ℚ)⌋ : ℚ) / 10) = (m : ℚ) ∧
      pm25toAQI m = aqiFromConcentration (m : ℚ)) ∧
    pm25toAQI (cppTruncToInt 12.05) = 50 ∧
    linear 50 0 12 0 12 = 50 := by
  refine ⟨fun m => ⟨floor_ten_int m, rfl⟩, ?_, ?_⟩ <;>
    norm_num [pm25toAQI, classifyC, linear, roundHalfAway, cppTruncToInt]

/-- Claim C7: on the band-1 range the converter is monotone and bounded:
for concentrations `0 ≤ x1 ≤ x2 ≤ 12.0` (truncated to the converter's integer
domain by the C++ call coercion), `aqi(x1) ≤ aqi(x2)` and the result lies in
`[0, 50]`. -/
theorem c7_band1_monotone_bounded (x1 x2 : ℚ) (h0 : 0 ≤ x1) (h12 : x1 ≤ x2) (h2 : x2 ≤ 12) :
    pm25toAQI (cppTruncToInt x1) ≤ pm25toAQI (cppTruncToInt x2) ∧
    0 ≤ pm25toAQI (cppTruncToInt x1) ∧ pm25toAQI (cppTruncToInt x1) ≤ 50 := by
  have h02 : 0 ≤ x2 := le_trans h0 h12
  have t1 : cppTruncToInt x1 = ⌊x1⌋ := if_pos h0
  have t2 : cppTruncToInt x2 = ⌊x2⌋ := if_pos h02
  have f0 : 0 ≤ ⌊x1⌋ := Int.le_floor.mpr (by exact_mod_cast h0)
  have fmono : ⌊x1⌋ ≤ ⌊x2⌋ := Int.floor_mono h12
  have f12 : ⌊x2⌋ ≤ 12 := by
    have h1 : ⌊x2⌋ ≤ ⌊(12 : ℚ)⌋ := Int.floor_mono h2
    have h2' : ⌊(12 : ℚ)⌋ = 12 := by norm_num
    omega
  have key : ∀ a : ℕ, a ≤ 12 → ∀ b : ℕ, b ≤ 12 → a ≤ b →
      (([0, 4, 8, 13, 17, 21, 25, 29, 33, 38, 42, 46, 50] : List ℤ).getD a 0 ≤
        ([0, 4, 8, 13, 17, 21, 25, 29, 33, 38, 42, 46, 50] : List ℤ).getD b 0) ∧
      0 ≤ ([0, 4, 8, 13, 17, 21, 25, 29, 33, 38, 42, 46, 50] : List ℤ).getD a 0 ∧
      ([0, 4, 8, 13, 17, 21, 25, 29, 33, 38, 42, 46, 50] : List ℤ).getD a 0 ≤ 50 := by
    decide
  rw [t1, t2, pm25toAQI_val _ f0 (le_trans fmono f12), pm25toAQI_val _ (le_trans f0 fmono) f12]
  exact key ⌊x1⌋.toNat (by omega) ⌊x2⌋.toNat (by omega) (by omega)

/-- Witness for C7 at `x1 = 3`, `x2 = 9`: `aqi(3) ≤ aqi(9)` and the value at 3
lies in `[0, 50]`. -/
theorem c7_band1_monotone_bounded_witness :
    pm25toAQI (cppTruncToInt 3) ≤ pm25toAQI (cppTruncToInt 9) ∧
    0 ≤ pm25toAQI (cppTruncToInt 3) ∧ pm25toAQI (cppTruncToInt 3) ≤ 50 :=
  c7_band1_monotone_bounded 3 9 (by decide) (by decide) (by decide)

/-- Claim C8: for every concentration below 0 and every concentration above the
top breakpoint bound (above 1000.4, i.e. the integers above 1000), no guard of
the chain matches and the converter extrapolates with the last band's formula
`linear(1000, 501, 1000.4, 500.5, c)`, without clamping, still returning an
integer (the function is total by construction). -/
theorem c8_unbounded_extrapolation (n : ℤ) (h : n < 0 ∨ 1000 < n) :
    pm25toAQI n = linear 1000 501 1000.4 500.5 (n : ℚ) := by
  rw [pm25toAQI, floor_ten_int]
  apply classifyC_else
  rcases h with h | h
  · exact Or.inl (by exact_mod_cast h)
  · refine Or.inr ?_
    have h1 : (1001 : ℚ) ≤ (n : ℚ) := by exact_mod_cast h
    norm_num
    linarith

/-- Witness for C8 at `n = -5`: the converter applies the last band's formula to
a negative input. -/
theorem c8_unbounded_extrapolation_witness :
    pm25toAQI (-5) = linear 1000 501 1000.4 500.5 ((-5 : ℤ) : ℚ) :=
  c8_unbounded_extrapolation (-5) (Or.inl (by decide))

/-- Claim C9 counterexample: the claim says every value ≥ 350.5 is classified by
the last (catch-all) band, but at concentration 400 (which is ≥ 350.5) the source
uses the seventh band `[401,500] ↦ [350.5,500.4]` and returns 434, while the last
band's formula gives 401 there. -/
theorem c9_catchall_counterexample :
    (350.5 : ℚ) ≤ 400 ∧ pm25toAQI 400 ≠ linear 1000 501 1000.4 500.5 400 := by
  constructor <;>
    norm_num [pm25toAQI, classifyC, linear, roundHalfAway]

/-- Claim C9 (amended): the converter is total — the breakpoint chain ends in an
unguarded `else`, so every input yields an integer — and every value ≥ 500.5
(every integer input ≥ 501) is classified by the last, catch-all band, which is
open-ended above. -/
theorem c9_catchall_amended (n : ℤ) (h : 501 ≤ n) :
    pm25toAQI n = linear 1000 501 1000.4 500.5 (n : ℚ) := by
  rw [pm25toAQI, floor_ten_int]
  apply classifyC_else
  refine Or.inr ?_
  have h1 : (501 : ℚ) ≤ (n : ℚ) := by exact_mod_cast h
  norm_num
  linarith

/-- Witness for C9 at `n = 501`, the first integer of the catch-all band. -/
theorem c9_catchall_amended_witness :
    pm25toAQI 501 = linear 1000 501 1000.4 500.5 ((501 : ℤ) : ℚ) :=
  c9_catchall_amended 501 (by decide)

end AirGradient

namespace AirGradient

lemma hexDigitChar_lower : ∀ m : ℕ, m < 16 → isLowerHexDigit (hexDigitChar m) = true := by
  decide

lemma hexCharsAux_lower (fuel : ℕ) :
    ∀ n : ℕ, ∀ c ∈ hexCharsAux fuel n, isLowerHexDigit c = true := by
  induction fuel with
  | zero => intro n c hc; simp [hexCharsAux] at hc
  | succ fuel ih =>
    intro n c hc
    rw [hexCharsAux] at hc
    by_cases h : n < 16
    · rw [if_pos h] at hc
      simp at hc
      subst hc
      exact hexDigitChar_lower n h
    · rw [if_neg h] at hc
      rcases List.mem_append.mp hc with hc | hc
      · exact ih (n / 16) c hc
      · simp at hc
        subst hc
        exact hexDigitChar_lower (n % 16) (Nat.mod_lt _ (by omega))

/-- Arduino `String(n, HEX)` consists of lowercase hexadecimal characters. -/
lemma toHexString_lower (n : ℕ) : ∀ c ∈ (toHexString n).data, isLowerHexDigit c = true := by
  intro c hc
  exact hexCharsAux_lower (n + 1) n c hc

lemma hexCharsAux_length :
    ∀ fuel n k : ℕ, n < 16 ^ k → 1 ≤ k → (hexCharsAux fuel n).length ≤ k := by
  intro fuel
  induction fuel with
  | zero => intro n k _ hk; simp [hexCharsAux]
  | succ fuel ih =>
    intro n k hn hk
    rw [hexCharsAux]
    by_cases h : n < 16
    · rw [if_pos h]; simpa using hk
    · rw [if_neg h]
      have hk2 : 2 ≤ k := by
        by_contra hcon
        have : k = 1 := by omega
        subst this
        simp at hn
        omega
      have hdiv : n / 16 < 16 ^ (k - 1) := by
        have h16 : 0 < 16 := by omega
        rw [Nat.div_lt_iff_lt_mul h16]
        have : 16 ^ (k - 1) * 16 = 16 ^ k := by
          rw [← pow_succ]
          congr 1
          omega
        omega
      have := ih (n / 16) (k - 1) hdiv (by omega)
      simp [List.length_append]
      omega

/-- A `uint32_t` chip id renders to at most 8 hex characters. -/
lemma toHexString_length_le8 (chip : ℕ) : (toHexString (chip % 2 ^ 32)).data.length ≤ 8 := by
  have h : chip % 2 ^ 32 < 16 ^ 8 := by
    have := Nat.mod_lt chip (y := 2 ^ 32) (by norm_num)
    norm_num at this ⊢
    omega
  exact hexCharsAux_length _ _ 8 h (by omega)

lemma str_ext {a b : String} (h : a.data = b.data) : a = b := by
  cases a; cases b; exact congrArg String.mk h

lemma str_data_append (a b : String) : (a ++ b).data = a.data ++ b.data := rfl

/-- `toCharArray(..., 64)` is the identity on strings that fit the buffer. -/
lemma toCharArray_of_le (s : String) (h : s.data.length ≤ 63) : toCharArray 64 s = s := by
  apply str_ext
  show s.data.take 63 = s.data
  exact List.take_of_length_le h

@[simp] lemma sampleTick_msLAST_METRIC (cfg now inp s) :
    (sampleTick cfg now inp s).msLAST_METRIC = s.msLAST_METRIC := rfl

@[simp] lemma sampleTick_deviceid (cfg now inp s) :
    (sampleTick cfg now inp s).deviceid = s.deviceid := rfl

@[simp] lemma sampleTick_topicPre (cfg now inp s) :
    (sampleTick cfg now inp s).topicPre = mqttTopicRoot ++ "/" ++ s.deviceid ++ "/" := rfl

@[simp] lemma publishTick_fst (cfg now s resp) :
    (publishTick cfg now s resp).1 = { s with msLAST_METRIC := now } := rfl

/-- Every event the publish branch emits is a retained publish of one of the
configuration's metrics on the state's topic root, with that metric's payload. -/
lemma publishTick_shape (cfg : Config) (now : ℕ) (s : DeviceState) (resp)
    (e : Event) (he : e ∈ (publishTick cfg now s resp).2) :
    ∃ m ∈ metricsOf cfg, e = Event.publish (toCharArray 64 (s.topicPre ++ m)) (payloadOf s m) true := by
  rcases cfg with ⟨co2, pm, sht, w, q⟩
  cases co2 <;> cases pm <;> cases sht <;>
    simp [publishTick, metricsOf, payloadOf] at he ⊢ <;>
    aesop

/-- The reconnect loop emits only connect attempts and 5000 ms delays. -/
lemma reconnect_shape (l : List (ℕ × Bool)) (e : Event) (he : e ∈ (reconnect l).1) :
    (∃ cid, e = Event.connectAttempt cid) ∨ e = Event.delayMs 5000 := by
  induction l with
  | nil => simp [reconnect] at he
  | cons hd tl ih =>
    rcases hd with ⟨rnd, ok⟩
    rw [reconnect] at he
    by_cases hok : ok
    · subst hok
      simp at he
      exact Or.inl ⟨_, he⟩
    · have hok' : ok = false := by cases ok <;> simp_all
      subst hok'
      simp at he
      rcases he with he | he | he
      · exact Or.inl ⟨_, he⟩
      · exact Or.inr he
      · exact ih he

lemma samplePhase_msLAST_METRIC (cfg inp s) :
    (samplePhase cfg inp s).1.msLAST_METRIC = s.msLAST_METRIC := by
  unfold samplePhase
  split <;> simp

end AirGradient

namespace AirGradient

lemma toHexString_length_pos (n : ℕ) : 1 ≤ (toHexString n).data.length := by
  show 1 ≤ (hexCharsAux (n + 1) n).length
  rw [hexCharsAux]
  by_cases h : n < 16
  · simp [h]
  · simp [h]

lemma good_setupState (chip : ℕ) : GoodState chip (setupState chip) := by
  constructor
  · show toCharArray 32 (toHexString (chip % 2 ^ 32)) = toHexString (chip % 2 ^ 32)
    apply str_ext
    show (toHexString (chip % 2 ^ 32)).data.take 31 = (toHexString (chip % 2 ^ 32)).data
    exact List.take_of_length_le (le_trans (toHexString_length_le8 chip) (by omega))
  · exact Or.inl rfl

lemma good_sampleTick (cfg : Config) (now : ℕ) (inp : SampleInputs) {chip : ℕ} {s : DeviceState}
    (h : GoodState chip s) : GoodState chip (sampleTick cfg now inp s) := by
  rcases h with ⟨hid, -⟩
  refine ⟨by simp [hid], Or.inr ?_⟩
  simp [topicPreOf, hid]

lemma good_samplePhase (cfg : Config) (inp : IterInputs) {chip : ℕ} {s : DeviceState}
    (h : GoodState chip s) : GoodState chip (samplePhase cfg inp s).1 := by
  unfold samplePhase
  split
  · simpa using good_sampleTick cfg inp.tSample inp.sensors h
  · exact h

lemma good_publishPhase (cfg : Config) (inp : IterInputs) {chip : ℕ} {s : DeviceState}
    (h : GoodState chip s) : GoodState chip (publishPhase cfg inp s).1 := by
  rcases h with ⟨hid, hpre⟩
  unfold publishPhase
  split
  · exact ⟨hid, hpre⟩
  · exact ⟨hid, hpre⟩

lemma good_loopIteration (cfg : Config) (inp : IterInputs) {chip : ℕ} {s : DeviceState}
    (h : GoodState chip s) : GoodState chip (loopIteration cfg inp s).1 := by
  unfold loopIteration
  dsimp only
  split
  · exact good_publishPhase cfg inp (good_samplePhase cfg inp h)
  · exact h

lemma good_run (cfg : Config) (inps : List IterInputs) :
    ∀ {chip : ℕ} {s : DeviceState}, GoodState chip s → GoodState chip (run cfg inps s).1 := by
  induction inps with
  | nil => intro chip s h; exact h
  | cons i rest ih =>
    intro chip s h
    exact ih (good_loopIteration cfg i h)

lemma samplePhase_events (cfg : Config) (inp : IterInputs) {chip : ℕ} (s : DeviceState)
    (e : Event) (he : e ∈ (samplePhase cfg inp s).2) : BenignEvent cfg chip e := by
  unfold samplePhase at he
  split at he
  · simp at he
    subst he
    right; right; right; left
    refine ⟨_, _, _, _, _, rfl, ?_, ?_, ?_⟩
    · intro hsht; constructor <;> simp [sampleTick, hsht]
    · intro hco2; simp [sampleTick, hco2]
    · intro hpm; constructor <;> simp [sampleTick, hpm]
  · simp at he

lemma publishPhase_events (cfg : Config) (inp : IterInputs) {chip : ℕ} {s : DeviceState}
    (h : GoodState chip s) (e : Event) (he : e ∈ (publishPhase cfg inp s).2) :
    BenignEvent cfg chip e := by
  unfold publishPhase at he
  split at he
  · obtain ⟨m, hm, he'⟩ := publishTick_shape cfg inp.tPublish s inp.pubResp e he
    right; right; right; right
    exact ⟨m, hm, payloadOf s m, s.topicPre, h.2, he'⟩
  · simp at he

lemma connPhase_events (cfg : Config) (inp : IterInputs) (e : Event)
    (he : e ∈ (connPhase cfg inp).1) :
    (∃ cid, e = Event.connectAttempt cid) ∨ e = Event.delayMs 5000 ∨ e = Event.clientLoop := by
  unfold connPhase at he
  split at he
  · split at he
    · simp at he
      exact Or.inr (Or.inr he)
    · simp only [] at he
      rcases List.mem_append.mp he with he | he
      · rcases reconnect_shape _ _ he with h | h
        · exact Or.inl h
        · exact Or.inr (Or.inl h)
      · split at he <;> simp at he
        exact Or.inr (Or.inr he)
  · simp at he

lemma loopIteration_events (cfg : Config) (inp : IterInputs) {chip : ℕ} {s : DeviceState}
    (h : GoodState chip s) (e : Event) (he : e ∈ (loopIteration cfg inp s).2) :
    BenignEvent cfg chip e := by
  unfold loopIteration at he
  dsimp only at he
  split at he
  · simp only [List.mem_append] at he
    rcases he with (he | he) | he
    · rcases connPhase_events cfg inp e he with h' | h' | h'
      · exact Or.inl h'
      · exact Or.inr (Or.inl h')
      · exact Or.inr (Or.inr (Or.inl h'))
    · exact samplePhase_events cfg inp s e he
    · exact publishPhase_events cfg inp (good_samplePhase cfg inp h) e he
  · rcases connPhase_events cfg inp e he with h' | h' | h'
    · exact Or.inl h'
    · exact Or.inr (Or.inl h')
    · exact Or.inr (Or.inr (Or.inl h'))

lemma run_events (cfg : Config) (inps : List IterInputs) :
    ∀ {chip : ℕ} {s : DeviceState}, GoodState chip s →
      ∀ e ∈ (run cfg inps s).2, BenignEvent cfg chip e := by
  induction inps with
  | nil => intro chip s _ e he; simp [run] at he
  | cons i rest ih =>
    intro chip s h e he
    simp only [run, List.mem_append] at he
    rcases he with he | he
    · exact loopIteration_events cfg i h e he
    · exact ih (good_loopIteration cfg i h) e he

end AirGradient

namespace AirGradient

lemma metric_length_le : ∀ m ∈ allMetrics, m.data.length ≤ 11 := by decide

lemma metric_length_ge : ∀ m ∈ allMetrics, 3 ≤ m.data.length := by decide

lemma len_append (a b : String) : (a ++ b).data.length = a.data.length + b.data.length := by
  rw [str_data_append, List.length_append]

lemma topicPreOf_length (chip : ℕ) :
    (topicPreOf chip).data.length = 13 + (toHexString (chip % 2 ^ 32)).data.length := by
  show (mqttTopicRoot ++ "/" ++ toHexString (chip % 2 ^ 32) ++ "/").data.length = _
  rw [len_append, len_append, len_append]
  have h1 : (mqttTopicRoot.data).length = 11 := by decide
  have h2 : (("/" : String).data).length = 1 := by decide
  omega

lemma metricsOf_sub (cfg : Config) : ∀ m ∈ metricsOf cfg, m ∈ allMetrics := by
  rcases cfg with ⟨co2, pm, sht, w, q⟩
  cases co2 <;> cases pm <;> cases sht <;> simp [metricsOf, allMetrics]

/-- A published topic `toCharArray 64 (p ++ m)` built from the cleared or the
canonical root equals the canonical topic of a metric only if the metric names
agree. -/
lemma topic_inj (chip : ℕ) (p m metric : String)
    (hp : p = "" ∨ p = topicPreOf chip)
    (hm : m ∈ allMetrics) (hmt : metric ∈ allMetrics)
    (h : toCharArray 64 (p ++ m) = topicFor chip metric) : m = metric := by
  have hdlen := toHexString_length_le8 chip
  have hdpos := toHexString_length_pos (chip % 2 ^ 32)
  have hmlen := metric_length_le m hm
  have hmtlen := metric_length_le metric hmt
  have hmtge := metric_length_ge metric hmt
  have hprelen := topicPreOf_length chip
  have htflen : (topicFor chip metric).data.length =
      (topicPreOf chip).data.length + metric.data.length := by
    show (topicPreOf chip ++ metric).data.length = _
    rw [len_append]
  rcases hp with hp | hp
  · subst hp
    exfalso
    have hshort : ("" ++ m : String).data.length ≤ 63 := by
      rw [len_append]
      have : (("" : String).data).length = 0 := by decide
      omega
    rw [toCharArray_of_le _ hshort] at h
    have hlen : ("" ++ m : String).data.length = (topicFor chip metric).data.length := by rw [h]
    rw [len_append] at hlen
    have h0 : (("" : String).data).length = 0 := by decide
    omega
  · subst hp
    have hshort : (topicPreOf chip ++ m : String).data.length ≤ 63 := by
      rw [len_append]
      omega
    rw [toCharArray_of_le _ hshort] at h
    have hdata : (topicPreOf chip).data ++ m.data = (topicPreOf chip).data ++ metric.data := by
      have := congrArg String.data h
      simpa only [str_data_append] using this
    exact str_ext (List.append_cancel_left hdata)

lemma not_mem_metricsOf_sht (cfg : Config) (h : cfg.hasSHT = false) :
    "temperature" ∉ metricsOf cfg ∧ "humidity" ∉ metricsOf cfg := by
  rcases cfg with ⟨co2, pm, sht, w, q⟩
  simp only at h
  subst h
  cases co2 <;> cases pm <;> simp [metricsOf]

lemma not_mem_metricsOf_co2 (cfg : Config) (h : cfg.hasCO2 = false) :
    "co2" ∉ metricsOf cfg := by
  rcases cfg with ⟨co2, pm, sht, w, q⟩
  simp only at h
  subst h
  cases pm <;> cases sht <;> simp [metricsOf]

lemma not_mem_metricsOf_pm (cfg : Config) (h : cfg.hasPM = false) :
    "aqi" ∉ metricsOf cfg ∧ "pm25" ∉ metricsOf cfg := by
  rcases cfg with ⟨co2, pm, sht, w, q⟩
  simp only at h
  subst h
  cases co2 <;> cases sht <;> simp [metricsOf]

/-- A metric not enabled by the configuration is never the topic of any publish
of a run started from the boot state. -/
lemma run_no_publish_of_not_mem (cfg : Config) (chip : ℕ) (inps : List IterInputs)
    (metric : String) (hmt : metric ∈ allMetrics) (hnot : metric ∉ metricsOf cfg)
    (pl : String) (rt : Bool) :
    Event.publish (topicFor chip metric) pl rt ∉ (run cfg inps (setupState chip)).2 := by
  intro hmem
  have hb := run_events cfg inps (good_setupState chip) _ hmem
  rcases hb with ⟨cid, hc⟩ | hc | hc | ⟨l1, l2, l3, l4, l5, hc, -⟩ | ⟨m, hm, pl', p, hp, hc⟩ <;>
    try exact Event.noConfusion hc
  obtain ⟨ht, -, -⟩ := Event.publish.inj hc
  have hmm : m = metric := topic_inj chip p m metric hp (metricsOf_sub cfg m hm) hmt ht.symm
  subst hmm
  exact hnot hm

end AirGradient

namespace AirGradient

lemma publishTick_co2_mem (cfg : Config) (now : ℕ) (s : DeviceState) (resp)
    (h : cfg.hasCO2 = true) :
    Event.publish (toCharArray 64 (s.topicPre ++ "co2")) (toCharArray 64 (toString s.CO2)) true
      ∈ (publishTick cfg now s resp).2 := by
  simp [publishTick, h]

lemma run_display_lines (cfg : Config) (chip : ℕ) (inps : List IterInputs)
    (l1 l2 l3 l4 l5 : String)
    (hmem : Event.display l1 l2 l3 l4 l5 ∈ (run cfg inps (setupState chip)).2) :
    (cfg.hasSHT = false → l1 = "" ∧ l2 = "") ∧
    (cfg.hasCO2 = false → l5 = "") ∧
    (cfg.hasPM = false → l3 = "" ∧ l4 = "") := by
  have hb := run_events cfg inps (good_setupState chip) _ hmem
  rcases hb with ⟨cid, hc⟩ | hc | hc | ⟨a1, a2, a3, a4, a5, hc, h1, h2, h3⟩ | ⟨m, hm, pl', p, hp, hc⟩ <;>
    try exact Event.noConfusion hc
  obtain ⟨e1, e2, e3, e4, e5⟩ := Event.display.inj hc
  subst e1; subst e2; subst e3; subst e4; subst e5
  exact ⟨h1, h2, h3⟩

/-- Claim C6: if a sensor is disabled, its display lines are always the empty
string in every rendered frame, and its topics are never published, over every
execution from the boot state: temperature/humidity for the SHT sensor, the CO2
line and topic, and the AQI/PM lines and topics. -/
theorem c6_disabled_sensor_invariant (cfg : Config) (chip : ℕ) (inps : List IterInputs) :
    (cfg.hasSHT = false →
      (∀ l1 l2 l3 l4 l5, Event.display l1 l2 l3 l4 l5 ∈ (run cfg inps (setupState chip)).2 →
        l1 = "" ∧ l2 = "") ∧
      (∀ pl rt,
        Event.publish (topicFor chip "temperature") pl rt ∉ (run cfg inps (setupState chip)).2 ∧
        Event.publish (topicFor chip "humidity") pl rt ∉ (run cfg inps (setupState chip)).2)) ∧
    (cfg.hasCO2 = false →
      (∀ l1 l2 l3 l4 l5, Event.display l1 l2 l3 l4 l5 ∈ (run cfg inps (setupState chip)).2 →
        l5 = "") ∧
      (∀ pl rt, Event.publish (topicFor chip "co2") pl rt ∉ (run cfg inps (setupState chip)).2)) ∧
    (cfg.hasPM = false →
      (∀ l1 l2 l3 l4 l5, Event.display l1 l2 l3 l4 l5 ∈ (run cfg inps (setupState chip)).2 →
        l3 = "" ∧ l4 = "") ∧
      (∀ pl rt,
        Event.publish (topicFor chip "aqi") pl rt ∉ (run cfg inps (setupState chip)).2 ∧
        Event.publish (topicFor chip "pm25") pl rt ∉ (run cfg inps (setupState chip)).2)) := by
  refine ⟨fun hf => ⟨?_, ?_⟩, fun hf => ⟨?_, ?_⟩, fun hf => ⟨?_, ?_⟩⟩
  · intro l1 l2 l3 l4 l5 hmem
    exact (run_display_lines cfg chip inps l1 l2 l3 l4 l5 hmem).1 hf
  · intro pl rt
    exact ⟨run_no_publish_of_not_mem cfg chip inps "temperature" (by decide)
        (not_mem_metricsOf_sht cfg hf).1 pl rt,
      run_no_publish_of_not_mem cfg chip inps "humidity" (by decide)
        (not_mem_metricsOf_sht cfg hf).2 pl rt⟩
  · intro l1 l2 l3 l4 l5 hmem
    exact (run_display_lines cfg chip inps l1 l2 l3 l4 l5 hmem).2.1 hf
  · intro pl rt
    exact run_no_publish_of_not_mem cfg chip inps "co2" (by decide)
      (not_mem_metricsOf_co2 cfg hf) pl rt
  · intro l1 l2 l3 l4 l5 hmem
    exact (run_display_lines cfg chip inps l1 l2 l3 l4 l5 hmem).2.2 hf
  · intro pl rt
    exact ⟨run_no_publish_of_not_mem cfg chip inps "aqi" (by decide)
        (not_mem_metricsOf_pm cfg hf).1 pl rt,
      run_no_publish_of_not_mem cfg chip inps "pm25" (by decide)
        (not_mem_metricsOf_pm cfg hf).2 pl rt⟩

/-- Witness for C6 with every sensor disabled, one concrete iteration: display
lines 1 and 2 are empty in every frame and the temperature topic is never
published. -/
theorem c6_disabled_sensor_invariant_witness :
    (∀ l1 l2 l3 l4 l5, Event.display l1 l2 l3 l4 l5 ∈
        (run ⟨false, false, false, true, true⟩
          [⟨true, [], 2500, ⟨1, 2, 3, 4⟩, 30000, fun _ _ _ => true⟩] (setupState 0)).2 →
      l1 = "" ∧ l2 = "") ∧
    (∀ pl rt, Event.publish (topicFor 0 "temperature") pl rt ∉
        (run ⟨false, false, false, true, true⟩
          [⟨true, [], 2500, ⟨1, 2, 3, 4⟩, 30000, fun _ _ _ => true⟩] (setupState 0)).2) := by
  have h := c6_disabled_sensor_invariant ⟨false, false, false, true, true⟩ 0
    [⟨true, [], 2500, ⟨1, 2, 3, 4⟩, 30000, fun _ _ _ => true⟩]
  exact ⟨(h.1 rfl).1, fun pl rt => ((h.1 rfl).2 pl rt).1⟩

end AirGradient

namespace AirGradient

/-- Claim C10: with CO2 enabled and the latest CO2 reading 412, the publish tick
publishes exactly the topic `airgradient/<deviceId>/co2` with payload `"412"`
and the retained flag set — any publish on that topic in the tick carries
exactly that payload and flag — and the device id is a lowercase hexadecimal
string. -/
theorem c10_co2_publish_scenario (cfg : Config) (chip : ℕ) (now : ℕ) (s : DeviceState)
    (resp : String → String → Bool → Bool)
    (hco2 : cfg.hasCO2 = true)
    (hpre : s.topicPre = topicPreOf chip)
    (hval : s.CO2 = 412) :
    Event.publish (topicFor chip "co2") "412" true ∈ (publishTick cfg now s resp).2 ∧
    (∀ pl rt, Event.publish (topicFor chip "co2") pl rt ∈ (publishTick cfg now s resp).2 →
      pl = "412" ∧ rt = true) ∧
    (∀ c ∈ (toHexString (chip % 2 ^ 32)).data, isLowerHexDigit c = true) := by
  have hlen : (topicPreOf chip ++ "co2" : String).data.length ≤ 63 := by
    rw [len_append, topicPreOf_length]
    have hd := toHexString_length_le8 chip
    have h3 : (("co2" : String).data).length = 3 := by decide
    omega
  have htopic : toCharArray 64 (s.topicPre ++ "co2") = topicFor chip "co2" := by
    rw [hpre]
    exact toCharArray_of_le _ hlen
  have hpay : toCharArray 64 (toString s.CO2) = "412" := by
    rw [hval]
    decide
  refine ⟨?_, ?_, toHexString_lower _⟩
  · have hmem := publishTick_co2_mem cfg now s resp hco2
    rw [htopic, hpay] at hmem
    exact hmem
  · intro pl rt hmem
    obtain ⟨m, hm, hc⟩ := publishTick_shape cfg now s resp _ hmem
    obtain ⟨ht, hpl, hrt⟩ := Event.publish.inj hc
    have hmm : m = "co2" := by
      apply topic_inj chip (topicPreOf chip) m "co2" (Or.inr rfl) (metricsOf_sub cfg m hm)
        (by decide)
      rw [← hpre]
      exact ht.symm
    subst hmm
    refine ⟨?_, hrt⟩
    rw [hpl]
    show payloadOf s "co2" = "412"
    rw [payloadOf, if_pos rfl, hval]
    decide

/-- Witness for C10 at chip id `0xdeadbeef` (device id `"deadbeef"`). -/
theorem c10_co2_publish_scenario_witness :
    Event.publish (topicFor 3735928559 "co2") "412" true ∈
      (publishTick sourceConfig 30000
        { setupState 3735928559 with CO2 := 412, topicPre := topicPreOf 3735928559 }
        (fun _ _ _ => true)).2 ∧
    (∀ pl rt, Event.publish (topicFor 3735928559 "co2") pl rt ∈
        (publishTick sourceConfig 30000
          { setupState 3735928559 with CO2 := 412, topicPre := topicPreOf 3735928559 }
          (fun _ _ _ => true)).2 →
      pl = "412" ∧ rt = true) ∧
    (∀ c ∈ (toHexString (3735928559 % 2 ^ 32)).data, isLowerHexDigit c = true) :=
  c10_co2_publish_scenario sourceConfig 3735928559 30000
    { setupState 3735928559 with CO2 := 412, topicPre := topicPreOf 3735928559 }
    (fun _ _ _ => true) rfl rfl rfl

/-- Claim C3 counterexample: a failed CO2 read surfaces as the in-band driver
value `-1`; the sample tick stores it, the display frame shows `"CO2: -1"`
(not an absent/empty line), and the publish tick publishes `"-1"` — so the
reading is not marked absent and is both displayed and published. -/
theorem c3_absent_counterexample :
    (sampleTick co2OnlyConfig 2500 ⟨-1, 5, 20, 50⟩ (setupState 0)).CO2 = -1 ∧
    (sampleTick co2OnlyConfig 2500 ⟨-1, 5, 20, 50⟩ (setupState 0)).ln5 = "CO2: -1" ∧
    ("CO2: -1" : String) ≠ "" ∧
    Event.display "" "" "" "" "CO2: -1" ∈
      (loopIteration co2OnlyConfig ⟨true, [], 2500, ⟨-1, 5, 20, 50⟩, 30000, fun _ _ _ => true⟩
        (setupState 0)).2 ∧
    Event.publish "airgradient/0/co2" "-1" true ∈
      (loopIteration co2OnlyConfig ⟨true, [], 2500, ⟨-1, 5, 20, 50⟩, 30000, fun _ _ _ => true⟩
        (setupState 0)).2 := by
  decide

/-- Claim C3 (amended): the sample tick performs no failure detection: for each
enabled sensor the driver's returned value — whatever it is, including an error
sentinel — is stored in the corresponding global and rendered into its display
line verbatim (and later published); there is no absent marking.  The tick is
total (no crash) and calls each driver once (no within-tick retry). -/
theorem c3_no_absent_marking_amended (cfg : Config) (now : ℕ) (inp : SampleInputs)
    (s : DeviceState) :
    (cfg.hasCO2 = true →
      (sampleTick cfg now inp s).CO2 = inp.co2Raw ∧
      (sampleTick cfg now inp s).ln5 = "CO2: " ++ toString inp.co2Raw) ∧
    (cfg.hasPM = true →
      (sampleTick cfg now inp s).PM2 = inp.pm2Raw ∧
      (sampleTick cfg now inp s).ln4 = "PM2: " ++ toString inp.pm2Raw) ∧
    (cfg.hasSHT = true →
      (sampleTick cfg now inp s).Humidity = cppTruncToInt inp.shtRH ∧
      (sampleTick cfg now inp s).ln2 = "HMD: " ++ toString (cppTruncToInt inp.shtRH) ++ "%") := by
  refine ⟨fun h => ?_, fun h => ?_, fun h => ?_⟩ <;>
    exact ⟨by simp [sampleTick, h], by simp [sampleTick, h]⟩

/-- Witness for C3's amended statement: a CO2 error sentinel `-7` is stored and
rendered verbatim. -/
theorem c3_no_absent_marking_amended_witness :
    (sampleTick sourceConfig 0 ⟨-7, 3, 10, 40⟩ (setupState 0)).CO2 = -7 ∧
    (sampleTick sourceConfig 0 ⟨-7, 3, 10, 40⟩ (setupState 0)).ln5 =
      "CO2: " ++ toString (-7 : ℤ) := by
  have h := c3_no_absent_marking_amended sourceConfig 0 ⟨-7, 3, 10, 40⟩ (setupState 0)
  exact h.1 rfl

/-- Claim C4: the publish tick sets the last-publish mark to `now`
unconditionally and its behaviour — state and the full sequence of publish
calls for every enabled metric — is identical for any two transport reply
functions; in particular a `false` reply to one metric's publish does not
block, retry, or roll back the other publishes of the tick. -/
theorem c4_publish_unconditional (cfg : Config) (now : ℕ) (s : DeviceState)
    (resp resp2 : String → String → Bool → Bool) :
    publishTick cfg now s resp = publishTick cfg now s resp2 ∧
    (publishTick cfg now s resp).1.msLAST_METRIC = now ∧
    (cfg.hasCO2 = true →
      Event.publish (toCharArray 64 (s.topicPre ++ "co2")) (toCharArray 64 (toString s.CO2)) true
        ∈ (publishTick cfg now s resp).2) ∧
    (cfg.hasPM = true →
      Event.publish (toCharArray 64 (s.topicPre ++ "aqi")) (toCharArray 64 (toString s.AQI)) true
        ∈ (publishTick cfg now s resp).2 ∧
      Event.publish (toCharArray 64 (s.topicPre ++ "pm25")) (toCharArray 64 (toString s.PM2)) true
        ∈ (publishTick cfg now s resp).2) ∧
    (cfg.hasSHT = true →
      Event.publish (toCharArray 64 (s.topicPre ++ "humidity"))
          (toCharArray 64 (toString s.Humidity)) true
        ∈ (publishTick cfg now s resp).2 ∧
      Event.publish (toCharArray 64 (s.topicPre ++ "temperature"))
          (toCharArray 64 (arduinoFloatString s.Temperature)) true
        ∈ (publishTick cfg now s resp).2) := by
  refine ⟨rfl, rfl, fun h => ?_, fun h => ⟨?_, ?_⟩, fun h => ⟨?_, ?_⟩⟩ <;>
    simp [publishTick, *]

/-- Witness for C4: a transport that replies `false` to every publish produces
the same tick as one that replies `true`, the mark is set, and the CO2 publish
is emitted. -/
theorem c4_publish_unconditional_witness :
    publishTick sourceConfig 7 (setupState 0) (fun _ _ _ => false) =
      publishTick sourceConfig 7 (setupState 0) (fun _ _ _ => true) ∧
    (publishTick sourceConfig 7 (setupState 0) (fun _ _ _ => false)).1.msLAST_METRIC = 7 ∧
    Event.publish (toCharArray 64 ((setupState 0).topicPre ++ "co2"))
        (toCharArray 64 (toString (setupState 0).CO2)) true
      ∈ (publishTick sourceConfig 7 (setupState 0) (fun _ _ _ => false)).2 := by
  have h := c4_publish_unconditional sourceConfig 7 (setupState 0)
    (fun _ _ _ => false) (fun _ _ _ => true)
  exact ⟨h.1, h.2.1, h.2.2.1 rfl⟩

end AirGradient

namespace AirGradient

lemma reconnect_fail3 (r0 r1 r2 r3 : ℕ) :
    reconnect [(r0, false), (r1, false), (r2, false), (r3, true)] =
      ([Event.connectAttempt ("airgradient-" ++ toHexString (r0 % 65535)), Event.delayMs 5000,
        Event.connectAttempt ("airgradient-" ++ toHexString (r1 % 65535)), Event.delayMs 5000,
        Event.connectAttempt ("airgradient-" ++ toHexString (r2 % 65535)), Event.delayMs 5000,
        Event.connectAttempt ("airgradient-" ++ toHexString (r3 % 65535))], true) := by
  simp [reconnect]

lemma loopIteration_trace (cfg : Config) (inp : IterInputs) (s : DeviceState)
    (h2 : (connPhase cfg inp).2 = true) :
    (loopIteration cfg inp s).2 =
      (connPhase cfg inp).1 ++ (samplePhase cfg inp s).2 ++
      (publishPhase cfg inp (samplePhase cfg inp s).1).2 := by
  unfold loopIteration
  dsimp only
  rw [if_pos h2]

/-- Claim C5: when the transport is down and `connect()` fails three times then
succeeds, the iteration's trace starts with exactly the four connect attempts —
each with a client id `"airgradient-" ++ hex(random)` derived from its own
random draw — separated by exactly three 5000 ms blocking backoff delays; no
publish happens before the supervisor returns connected (every publish of the
iteration lies in the remainder), and with the publish timer elapsed a retained
publish does follow in the remainder. -/
theorem c5_backoff_scenario (r0 r1 r2 r3 : ℕ) (inp : IterInputs) (s : DeviceState)
    (hconn : inp.connected = false)
    (hatt : inp.attempts = [(r0, false), (r1, false), (r2, false), (r3, true)])
    (hdue : msPUBLISH_INTERVAL ≤ u32sub inp.tPublish s.msLAST_METRIC) :
    ∃ rest : List Event,
      (loopIteration sourceConfig inp s).2 =
        [Event.connectAttempt ("airgradient-" ++ toHexString (r0 % 65535)), Event.delayMs 5000,
         Event.connectAttempt ("airgradient-" ++ toHexString (r1 % 65535)), Event.delayMs 5000,
         Event.connectAttempt ("airgradient-" ++ toHexString (r2 % 65535)), Event.delayMs 5000,
         Event.connectAttempt ("airgradient-" ++ toHexString (r3 % 65535))] ++ rest ∧
      (∀ t pl rt, Event.publish t pl rt ∈ (loopIteration sourceConfig inp s).2 →
        Event.publish t pl rt ∈ rest) ∧
      (∃ t pl, Event.publish t pl true ∈ rest) := by
  have hcp : connPhase sourceConfig inp =
      ([Event.connectAttempt ("airgradient-" ++ toHexString (r0 % 65535)), Event.delayMs 5000,
        Event.connectAttempt ("airgradient-" ++ toHexString (r1 % 65535)), Event.delayMs 5000,
        Event.connectAttempt ("airgradient-" ++ toHexString (r2 % 65535)), Event.delayMs 5000,
        Event.connectAttempt ("airgradient-" ++ toHexString (r3 % 65535)), Event.clientLoop],
       true) := by
    simp [connPhase, sourceConfig, hconn, hatt, reconnect_fail3]
  have htr := loopIteration_trace sourceConfig inp s (by rw [hcp])
  rw [hcp] at htr
  simp only [] at htr
  refine ⟨Event.clientLoop ::
      ((samplePhase sourceConfig inp s).2 ++
        (publishPhase sourceConfig inp (samplePhase sourceConfig inp s).1).2), ?_, ?_, ?_⟩
  · rw [htr]
    simp
  · intro t pl rt hm
    rw [htr] at hm
    simp only [List.cons_append, List.nil_append, List.mem_cons, List.mem_append] at hm ⊢
    rcases hm with hm | hm | hm | hm | hm | hm | hm | hm | hm | hm <;>
      first
        | exact Event.noConfusion hm
        | (exact Or.inl hm)
        | (exact Or.inr (Or.inl hm))
        | (exact Or.inr (Or.inr hm))
  · have hpubeq : (publishPhase sourceConfig inp (samplePhase sourceConfig inp s).1).2 =
        (publishTick sourceConfig inp.tPublish (samplePhase sourceConfig inp s).1 inp.pubResp).2 := by
      unfold publishPhase
      rw [if_pos]
      exact ⟨rfl, rfl, by rw [samplePhase_msLAST_METRIC]; exact hdue⟩
    refine ⟨toCharArray 64 ((samplePhase sourceConfig inp s).1.topicPre ++ "co2"),
      toCharArray 64 (toString (samplePhase sourceConfig inp s).1.CO2), ?_⟩
    apply List.mem_cons_of_mem
    apply List.mem_append_right
    rw [hpubeq]
    exact publishTick_co2_mem sourceConfig inp.tPublish _ inp.pubResp rfl

/-- Witness for C5: three failed draws 1, 2, 3 then a successful draw 4, with
the publish timer elapsed. -/
theorem c5_backoff_scenario_witness :
    ∃ rest : List Event,
      (loopIteration sourceConfig
        ⟨false, [(1, false), (2, false), (3, false), (4, true)], 0, ⟨1, 2, 3, 4⟩, 30000,
          fun _ _ _ => true⟩ (setupState 0)).2 =
        [Event.connectAttempt ("airgradient-" ++ toHexString (1 % 65535)), Event.delayMs 5000,
         Event.connectAttempt ("airgradient-" ++ toHexString (2 % 65535)), Event.delayMs 5000,
         Event.connectAttempt ("airgradient-" ++ toHexString (3 % 65535)), Event.delayMs 5000,
         Event.connectAttempt ("airgradient-" ++ toHexString (4 % 65535))] ++ rest ∧
      (∀ t pl rt, Event.publish t pl rt ∈
          (loopIteration sourceConfig
            ⟨false, [(1, false), (2, false), (3, false), (4, true)], 0, ⟨1, 2, 3, 4⟩, 30000,
              fun _ _ _ => true⟩ (setupState 0)).2 →
        Event.publish t pl rt ∈ rest) ∧
      (∃ t pl, Event.publish t pl true ∈ rest) :=
  c5_backoff_scenario 1 2 3 4
    ⟨false, [(1, false), (2, false), (3, false), (4, true)], 0, ⟨1, 2, 3, 4⟩, 30000,
      fun _ _ _ => true⟩ (setupState 0) rfl rfl (by decide)

end AirGradient
